import Mathlib

/-!
Shallow embedding of `src/app.py` (a Streamlit chat app around the OpenAI
chat-completions API) for checking its natural-language specification.

The two code paths under study are:
* `get_llm_response` (app.py lines 9-106): persona lookup, credential
  checks, one chat-completion request, substring-based error classification;
* the sidebar API-key self-test (app.py lines 216-232).

The network transport is a parameter `Request → TransportOutcome`; each
embedded operation returns, besides the displayed string(s), the list of
requests it issued, so "performs no network call" is expressible.
Machine-level details (UTF-8 byte layout of Python strings) are modelled
by Lean `String`/`List Char`; the Python `str.lower()` call is modelled on the
ASCII range, which covers every needle the code compares against.
-/

namespace StreamlitApp

/-- One role/content entry of the `messages` array sent to the API. -/
structure Message where
  role : String
  content : String

/-- The observable shape of one `client.chat.completions.create(...)` call:
model name, ordered message list, optional `temperature`, optional
`max_tokens`. Fields the code never sets are `none`. -/
structure Request where
  model : String
  messages : List Message
  temperature : Option ℚ
  max_tokens : Option Nat

/-- What the transport does for a request: return a response whose choices
carry the listed content strings, or raise an error whose `str(e)` is
`msg`. -/
inductive TransportOutcome where
  | success (choices : List String)
  | error (msg : String)

/-- The Python `needle in hay` substring test, on the character level. -/
def listContains (needle : List Char) : List Char → Bool
  | [] => needle.isEmpty
  | c :: rest => needle.isPrefixOf (c :: rest) || listContains needle rest

/-- The Python `needle in hay` test on strings. -/
def strContains (hay needle : String) : Bool :=
  listContains needle.data hay.data

/-- The Python `s.lower()` call (ASCII range, which covers all needles used). -/
def lower (s : String) : String :=
  ⟨s.data.map Char.toLower⟩

/-- The Python `s.startswith(p)` test. -/
def startswith (s p : String) : Bool :=
  p.data.isPrefixOf s.data

/-- The `expert_prompts` dict literal, app.py lines 21-27, in source order. -/
def expert_prompts : List (String × String) :=
  [("健康アドバイザー", "あなたは健康に関する専門家です。医学的知識に基づいて、安全で実践的な健康アドバイスを提供してください。ただし、重篤な症状の場合は医師への相談を促してください。"),
   ("料理研究家", "あなたは料理の専門家です。美味しく栄養バランスの取れた料理レシピや調理のコツ、食材の選び方について詳しくアドバイスしてください。"),
   ("ITコンサルタント", "あなたはITとプログラミングの専門家です。技術的な問題解決や最新のIT動向、プログラミングに関する質問に対して、わかりやすく実践的なアドバイスを提供してください。"),
   ("旅行ガイド", "あなたは旅行の専門家です。世界各地の観光地、文化、グルメ、交通手段について詳しく、素晴らしい旅行プランや旅行のコツを提案してください。"),
   ("ビジネスコーチ", "あなたはビジネスとキャリアの専門家です。経営戦略、マーケティング、キャリア開発、チームマネジメントについて実践的なアドバイスを提供してください。")]

/-- The default of `expert_prompts.get(expert_type, ...)`, app.py line 29. -/
def generic_prompt : String :=
  "あなたは一般的なアシスタントです。質問に対して親切で正確な回答を提供してください。"

/-- The persona resolver: `expert_prompts.get(expert_type, generic)`,
app.py line 29. -/
def resolvePrompt (expert_type : String) : String :=
  (expert_prompts.lookup expert_type).getD generic_prompt

/-- Return value at app.py line 35 (no API key configured). -/
def missingKeyMessage : String :=
  "❌ エラー: OpenAI APIキーが設定されていません。.envファイルにOPENAI_API_KEYを設定してください。"

/-- Return value at app.py line 38 (key does not start with sk-). -/
def malformedKeyMessage : String :=
  "❌ エラー: OpenAI APIキーの形式が正しくありません。正しいAPIキーを設定してください。"

/-- Return value at app.py lines 60-74 (401 / invalid_api_key branch). -/
def invalidCredentialMessage : String :=
  "❌ **APIキーエラー**: OpenAI APIキーが無効です。\n            \n**考えられる原因**:\n- APIキーが期限切れまたは無効\n- APIキーの形式が正しくない\n- 環境変数の読み込みエラー\n\n**解決方法**:\n1. https://platform.openai.com/api-keys にアクセス\n2. 新しいAPIキーを作成\n3. `.env`ファイルの`OPENAI_API_KEY`を新しいキーに更新\n4. サイドバーの「設定を再読み込み」ボタンを押す\n5. 「APIキーをテスト」ボタンで確認\n            \n**注意**: APIキーには有効期限があり、使用制限もあります。"

/-- Return value at app.py lines 77-82 (429 / rate_limit branch). -/
def rateLimitedMessage : String :=
  "❌ **レート制限エラー**: APIの使用制限に達しました。\n            \n**解決方法**:\n1. しばらく時間をおいてから再試行\n2. OpenAI Platform (https://platform.openai.com/usage) で使用状況を確認\n3. 必要に応じてプランをアップグレード"

/-- Return value at app.py lines 85-90 (quota / billing branch). -/
def quotaExceededMessage : String :=
  "❌ **利用制限エラー**: APIの利用制限に達しているか、課金設定に問題があります。\n            \n**解決方法**:\n1. OpenAI Platform (https://platform.openai.com/usage) で使用状況を確認\n2. 課金設定を確認・更新\n3. 利用制限内での使用を心がけてください"

/-- Return value at app.py lines 93-98 (403 branch). -/
def forbiddenMessage : String :=
  "❌ **アクセス権限エラー**: APIへのアクセスが拒否されました。\n            \n**解決方法**:\n1. APIキーの権限を確認\n2. OpenAI Platformでアカウント状態を確認\n3. 必要に応じてサポートに問い合わせ"

/-- Text before the interpolated `{error_message}` at app.py line 101. -/
def unknownHead : String :=
  "❌ **予期しないエラー**: "

/-- Text after the interpolated `{error_message}` at app.py lines 101-106. -/
def unknownTail : String :=
  "\n            \n**対処方法**:\n1. サイドバーの「APIキーをテスト」でキーの有効性を確認\n2. インターネット接続を確認\n3. しばらく時間をおいてから再試行"

/-- The f-string at app.py lines 101-106: raw error text interpolated
between fixed head and tail. -/
def unknownMessage (e : String) : String :=
  unknownHead ++ e ++ unknownTail

/-- The failure taxonomy of the except-branch, app.py lines 59-106. -/
inductive ErrorCategory where
  | invalidCredential
  | rateLimited
  | quotaExceeded
  | forbidden
  | unknown
deriving DecidableEq

/-- The classification chain of app.py lines 59-100, returning the
category instead of the message. -/
def classify (e : String) : ErrorCategory :=
  if strContains e "401" || strContains e "invalid_api_key" then ErrorCategory.invalidCredential
  else if strContains e "429" || strContains e "rate_limit" then ErrorCategory.rateLimited
  else if strContains (lower e) "quota" || strContains (lower e) "billing" then ErrorCategory.quotaExceeded
  else if strContains e "403" then ErrorCategory.forbidden
  else ErrorCategory.unknown

/-- Modelled from the spec, section 4.2 step 5, for a refinement
comparison with `classify`: first match wins, in the priority order
401/invalid_api_key, then 429/rate_limit, then quota/billing compared
case-insensitively, then 403, otherwise Unknown. -/
def classifySpec (e : String) : ErrorCategory :=
  if strContains e "401" || strContains e "invalid_api_key" then ErrorCategory.invalidCredential
  else if strContains e "429" || strContains e "rate_limit" then ErrorCategory.rateLimited
  else if strContains (lower e) (lower "quota") || strContains (lower e) (lower "billing") then ErrorCategory.quotaExceeded
  else if strContains e "403" then ErrorCategory.forbidden
  else ErrorCategory.unknown

/-- The fixed message each category maps to; Unknown interpolates the raw
error text. -/
def categoryMessage (c : ErrorCategory) (e : String) : String :=
  match c with
  | ErrorCategory.invalidCredential => invalidCredentialMessage
  | ErrorCategory.rateLimited => rateLimitedMessage
  | ErrorCategory.quotaExceeded => quotaExceededMessage
  | ErrorCategory.forbidden => forbiddenMessage
  | ErrorCategory.unknown => unknownMessage e

/-- The whole except-branch of app.py lines 55-106 as a function of
`str(e)`. -/
def renderError (e : String) : String :=
  if strContains e "401" || strContains e "invalid_api_key" then invalidCredentialMessage
  else if strContains e "429" || strContains e "rate_limit" then rateLimitedMessage
  else if strContains (lower e) "quota" || strContains (lower e) "billing" then quotaExceededMessage
  else if strContains e "403" then forbiddenMessage
  else unknownMessage e

/-- The request built at app.py lines 44-51: fixed model, a system entry
carrying the resolved prompt then a user entry carrying the input,
temperature 0.5, no max_tokens. -/
def mainRequest (input_text expert_type : String) : Request :=
  ⟨"gpt-4o-mini",
   [⟨"system", resolvePrompt expert_type⟩, ⟨"user", input_text⟩],
   some (1/2 : ℚ),
   none⟩

/-- The Python `str(IndexError)` text when `response.choices[0]` is taken on an
empty choices list inside the try-block. -/
def indexErrorText : String := "list index out of range"

/-- `get_llm_response` of app.py lines 9-106. `env` is
`os.environ.get("OPENAI_API_KEY")`; the returned pair is the displayed
string together with the list of requests issued. The Python check
`if not api_key` is falsy on both `None` and the empty string. -/
def get_llm_response (input_text expert_type : String) (env : Option String)
    (transport : Request → TransportOutcome) : String × List Request :=
  match env with
  | none => (missingKeyMessage, [])
  | some api_key =>
    if api_key = "" then (missingKeyMessage, [])
    else if startswith api_key "sk-" = false then (malformedKeyMessage, [])
    else
      match transport (mainRequest input_text expert_type) with
      | TransportOutcome.success [] => (renderError indexErrorText, [mainRequest input_text expert_type])
      | TransportOutcome.success (c :: _) => (c, [mainRequest input_text expert_type])
      | TransportOutcome.error e => (renderError e, [mainRequest input_text expert_type])

/-- The self-test request of app.py lines 222-226: one user message
"Hello", `max_tokens=5`, no temperature. -/
def testRequest : Request :=
  ⟨"gpt-4o-mini", [⟨"user", "Hello"⟩], none, some 5⟩

/-- Sidebar message at app.py line 232 (no key configured). -/
def keyNotSetMessage : String := "❌ APIキーが設定されていません"

/-- The API-key self-test of app.py lines 216-232. Returns the displayed
strings in order and the requests issued. `if test_api_key` is falsy on
`None` and on the empty string; no `sk-` check is performed. -/
def api_key_test (env : Option String) (transport : Request → TransportOutcome) :
    List String × List Request :=
  match env with
  | none => ([keyNotSetMessage], [])
  | some key =>
    if key = "" then ([keyNotSetMessage], [])
    else
      match transport testRequest with
      | TransportOutcome.success [] => (["❌ APIキーテスト失敗: " ++ indexErrorText], [testRequest])
      | TransportOutcome.success (c :: _) => (["✅ APIキーは有効です！", "テスト応答: " ++ c], [testRequest])
      | TransportOutcome.error e => (["❌ APIキーテスト失敗: " ++ e], [testRequest])

/-- The radio-button labels offered by the form, app.py line 142. -/
def radio_options : List String :=
  ["健康アドバイザー", "料理研究家", "ITコンサルタント", "旅行ガイド", "ビジネスコーチ"]

/-- The classification chain and the description in the spec coincide
pointwise. -/
theorem classify_eq_classifySpec (e : String) : classify e = classifySpec e := rfl

/-- The except-branch returns exactly the fixed message of the category
`classify` assigns. -/
theorem renderError_eq_categoryMessage (e : String) :
    renderError e = categoryMessage (classify e) e := by
  unfold renderError classify
  split_ifs <;> rfl

/-- A key passing the `sk-` prefix check is nonempty. -/
theorem startswith_sk_ne_empty (key : String) (hk : startswith key "sk-" = true) :
    key ≠ "" := by
  intro h
  subst h
  simp [startswith] at hk

/-- With a well-formed key, `get_llm_response` dispatches on the single
transport call it makes. -/
theorem get_llm_response_valid (input expert key : String)
    (tr : Request → TransportOutcome) (hk : startswith key "sk-" = true) :
    get_llm_response input expert (some key) tr =
      match tr (mainRequest input expert) with
      | TransportOutcome.success [] => (renderError indexErrorText, [mainRequest input expert])
      | TransportOutcome.success (c :: _) => (c, [mainRequest input expert])
      | TransportOutcome.error e => (renderError e, [mainRequest input expert]) := by
  show (if key = "" then (missingKeyMessage, [])
    else if startswith key "sk-" = false then (malformedKeyMessage, [])
    else
      match tr (mainRequest input expert) with
      | TransportOutcome.success [] => (renderError indexErrorText, [mainRequest input expert])
      | TransportOutcome.success (c :: _) => (c, [mainRequest input expert])
      | TransportOutcome.error e => (renderError e, [mainRequest input expert])) = _
  rw [if_neg (startswith_sk_ne_empty key hk), if_neg (by simp [hk])]

/-- C1: every transport error during `get_llm_response` is classified by
substring inspection of its text in the first-match-wins priority
order (401/invalid_api_key, then 429/rate_limit, then quota/billing
case-insensitively, then 403, else Unknown), and in particular
"403 forbidden" yields Forbidden and "429 rate_limit exceeded" yields
RateLimited. -/
theorem C1_classification_order :
    (∀ e, classify e = classifySpec e) ∧
    (∀ input expert key tr e, startswith key "sk-" = true →
      tr (mainRequest input expert) = TransportOutcome.error e →
      (get_llm_response input expert (some key) tr).1 = categoryMessage (classifySpec e) e) ∧
    classify "403 forbidden" = ErrorCategory.forbidden ∧
    classify "429 rate_limit exceeded" = ErrorCategory.rateLimited := by
  refine ⟨fun e => rfl, ?_, by decide, by decide⟩
  intro input expert key tr e hk ht
  rw [get_llm_response_valid input expert key tr hk, ht, ← classify_eq_classifySpec,
    ← renderError_eq_categoryMessage]

/-- C1 witness: a concrete erroring transport, classified per the spec
order. -/
theorem C1_classification_order_witness :
    (get_llm_response "q" "旅行ガイド" (some "sk-abc")
      (fun _ => TransportOutcome.error "boom")).1 = categoryMessage (classifySpec "boom") "boom" :=
  C1_classification_order.2.1 "q" "旅行ガイド" "sk-abc"
    (fun _ => TransportOutcome.error "boom") "boom" (by decide) rfl

/-- C2 counterexample: the credential can be present as the empty string
(the environment variable set to ""), which does not start with "sk-",
yet `get_llm_response` returns the missing-key message — not the
malformed-key message the claim requires for every present credential
without the "sk-" prefix. -/
theorem C2_counterexample :
    (some "" ≠ (none : Option String)) ∧
    startswith "" "sk-" = false ∧
    (get_llm_response "q" "健康アドバイザー" (some "")
      (fun _ => TransportOutcome.error "x")).1 = missingKeyMessage ∧
    missingKeyMessage ≠ malformedKeyMessage := by
  refine ⟨by simp, by decide, rfl, by decide⟩

/-- C2 (amended): an absent credential — and likewise a present but empty
one, which the falsy check treats the same way — yields the missing-key
message with no network call; a present, nonempty credential that does
not start with "sk-" yields the malformed-key message with no network
call. -/
theorem C2_credential_gate (input expert : String) (tr : Request → TransportOutcome) :
    get_llm_response input expert none tr = (missingKeyMessage, []) ∧
    get_llm_response input expert (some "") tr = (missingKeyMessage, []) ∧
    (∀ key, key ≠ "" → startswith key "sk-" = false →
      get_llm_response input expert (some key) tr = (malformedKeyMessage, [])) := by
  refine ⟨rfl, rfl, ?_⟩
  intro key hne hsw
  show (if key = "" then (missingKeyMessage, [])
    else if startswith key "sk-" = false then (malformedKeyMessage, [])
    else
      match tr (mainRequest input expert) with
      | TransportOutcome.success [] => (renderError indexErrorText, [mainRequest input expert])
      | TransportOutcome.success (c :: _) => (c, [mainRequest input expert])
      | TransportOutcome.error e => (renderError e, [mainRequest input expert])) = _
  rw [if_neg hne, if_pos hsw]

/-- C2 witness: the example key "not-a-key" from the spec is rejected with
the malformed-key message and no request is issued. -/
theorem C2_credential_gate_witness :
    get_llm_response "q" "料理研究家" (some "not-a-key")
      (fun _ => TransportOutcome.error "x") = (malformedKeyMessage, []) :=
  (C2_credential_gate "q" "料理研究家" (fun _ => TransportOutcome.error "x")).2.2
    "not-a-key" (by decide) (by decide)

/-- C3: the resolver is total — each of the five persona entries carries a
nonempty prompt, the five prompts are pairwise distinct, a looked-up
persona returns its own prompt, and every identifier outside the table
(the empty string included) returns the fixed generic fallback. -/
theorem C3_resolver_total :
    (∀ pr ∈ expert_prompts, pr.2 ≠ "") ∧
    (expert_prompts.map Prod.snd).Pairwise (fun a b => a ≠ b) ∧
    (∀ s pr, expert_prompts.lookup s = some pr → resolvePrompt s = pr) ∧
    (∀ s, s ∉ expert_prompts.map Prod.fst → resolvePrompt s = generic_prompt) ∧
    resolvePrompt "" = generic_prompt := by
  refine ⟨by decide, by decide, ?_, ?_, by decide⟩
  · intro s pr h
    simp [resolvePrompt, h]
  · intro s hs
    simp [expert_prompts, List.map] at hs
    obtain ⟨h1, h2, h3, h4, h5⟩ := hs
    have e1 : (s == "健康アドバイザー") = false := beq_eq_false_iff_ne.mpr h1
    have e2 : (s == "料理研究家") = false := beq_eq_false_iff_ne.mpr h2
    have e3 : (s == "ITコンサルタント") = false := beq_eq_false_iff_ne.mpr h3
    have e4 : (s == "旅行ガイド") = false := beq_eq_false_iff_ne.mpr h4
    have e5 : (s == "ビジネスコーチ") = false := beq_eq_false_iff_ne.mpr h5
    simp [resolvePrompt, expert_prompts, List.lookup, e1, e2, e3, e4, e5]

/-- C3 witness: a known persona resolves to its own prompt and the
unrecognized identifier "Astrologer" falls back to the generic prompt. -/
theorem C3_resolver_total_witness :
    resolvePrompt "健康アドバイザー" =
      "あなたは健康に関する専門家です。医学的知識に基づいて、安全で実践的な健康アドバイスを提供してください。ただし、重篤な症状の場合は医師への相談を促してください。" ∧
    resolvePrompt "Astrologer" = generic_prompt :=
  ⟨C3_resolver_total.2.2.1 "健康アドバイザー" _ (by decide),
   C3_resolver_total.2.2.2.1 "Astrologer" (by decide)⟩

/-- An error text classified Unknown is rendered with the interpolating
template of app.py lines 101-106. -/
theorem renderError_of_unknown (e : String) (h : classify e = ErrorCategory.unknown) :
    renderError e = unknownMessage e := by
  unfold classify at h
  unfold renderError
  split_ifs at h ⊢
  simp_all

/-- The Unknown template is never the empty string. -/
theorem unknownMessage_ne_empty (e : String) : unknownMessage e ≠ "" := by
  intro h
  have h2 := congrArg String.data h
  simp [unknownMessage, String.data_append, unknownHead] at h2

/-- C4: the gateway always returns a normal result pair; the missing-key,
malformed-key and all five classified failure messages are nonempty; and
for Unknown the raw error text is preserved verbatim inside the returned
message. -/
theorem C4_failure_messages (input expert e : String) (env : Option String)
    (tr : Request → TransportOutcome) :
    (∃ s reqs, get_llm_response input expert env tr = (s, reqs)) ∧
    missingKeyMessage ≠ "" ∧
    malformedKeyMessage ≠ "" ∧
    renderError e ≠ "" ∧
    (classify e = ErrorCategory.unknown → ∃ s t, renderError e = s ++ e ++ t) := by
  refine ⟨⟨_, _, rfl⟩, by decide, by decide, ?_, ?_⟩
  · unfold renderError
    split_ifs <;> first
      | exact by decide
      | exact unknownMessage_ne_empty e
  · intro h
    exact ⟨unknownHead, unknownTail, by rw [renderError_of_unknown e h]; rfl⟩

/-- C4 witness: an unrecognized error text reappears verbatim inside the
Unknown message. -/
theorem C4_failure_messages_witness :
    ∃ s t, renderError "mystery failure" = s ++ "mystery failure" ++ t :=
  (C4_failure_messages "q" "旅行ガイド" "mystery failure" none
    (fun _ => TransportOutcome.error "x")).2.2.2.2 (by decide)

/-- C5: on a successful transport response the gateway returns the first
content of the first choice unchanged, having issued exactly that one request. -/
theorem C5_success_passthrough (input expert key c : String) (rest : List String)
    (tr : Request → TransportOutcome)
    (hk : startswith key "sk-" = true)
    (ht : tr (mainRequest input expert) = TransportOutcome.success (c :: rest)) :
    get_llm_response input expert (some key) tr = (c, [mainRequest input expert]) := by
  rw [get_llm_response_valid input expert key tr hk, ht]

/-- C5 witness: the example choice text from the spec comes back unchanged. -/
theorem C5_success_passthrough_witness :
    get_llm_response "野菜は必要ですか" "健康アドバイザー" (some "sk-abc")
      (fun _ => TransportOutcome.success ["Eat more vegetables."]) =
      ("Eat more vegetables.", [mainRequest "野菜は必要ですか" "健康アドバイザー"]) :=
  C5_success_passthrough "野菜は必要ですか" "健康アドバイザー" "sk-abc"
    "Eat more vegetables." [] (fun _ => TransportOutcome.success ["Eat more vegetables."])
    (by decide) rfl

/-- C6: with a well-formed credential the gateway issues exactly one
request — system prompt then user text, model "gpt-4o-mini", temperature
0.5, no max_tokens — while the self-test request is a single user "Hello"
message with max_tokens 5. -/
theorem C6_request_shape (input expert key : String) (tr : Request → TransportOutcome)
    (hk : startswith key "sk-" = true) :
    (get_llm_response input expert (some key) tr).2 = [mainRequest input expert] ∧
    mainRequest input expert =
      ⟨"gpt-4o-mini", [⟨"system", resolvePrompt expert⟩, ⟨"user", input⟩],
        some (1/2 : ℚ), none⟩ ∧
    testRequest = ⟨"gpt-4o-mini", [⟨"user", "Hello"⟩], none, some 5⟩ := by
  refine ⟨?_, rfl, rfl⟩
  rw [get_llm_response_valid input expert key tr hk]
  cases ht : tr (mainRequest input expert) with
  | success choices => cases choices <;> rfl
  | error e => rfl

/-- C6 witness: a concrete run issues exactly the one main request. -/
theorem C6_request_shape_witness :
    (get_llm_response "hi" "ITコンサルタント" (some "sk-k")
      (fun _ => TransportOutcome.success ["ok"])).2 = [mainRequest "hi" "ITコンサルタント"] :=
  (C6_request_shape "hi" "ITコンサルタント" "sk-k"
    (fun _ => TransportOutcome.success ["ok"]) (by decide)).1

/-- C7: the resolver is pure and deterministic — in this embedding it is a
function of its argument alone (the dict literal is rebuilt identically on
every call and nothing else is read), so repeated calls agree, and the
whole gateway run is likewise reproducible for fixed environment and
transport. -/
theorem C7_resolver_pure (s : String) :
    resolvePrompt s = resolvePrompt s ∧
    (∀ input env tr, get_llm_response input s env tr = get_llm_response input s env tr) :=
  ⟨rfl, fun _ _ _ => rfl⟩

/-- C8: every radio-button label offered by the form is a key of the
persona table, so no user-selectable identifier falls through to the
generic fallback prompt. -/
theorem C8_radio_labels_resolve :
    ∀ l ∈ radio_options,
      (expert_prompts.lookup l).isSome = true ∧ resolvePrompt l ≠ generic_prompt := by
  decide

/-- C8 witness: one offered label, looked up concretely. -/
theorem C8_radio_labels_resolve_witness :
    (expert_prompts.lookup "ITコンサルタント").isSome = true ∧
    resolvePrompt "ITコンサルタント" ≠ generic_prompt :=
  C8_radio_labels_resolve "ITコンサルタント" (by decide)

/-- C9: classification is case-sensitive for "401", "invalid_api_key",
"429", "rate_limit" and "403" and case-insensitive only for "quota" and
"billing": a text matching none of the listed substrings in the required
case is Unknown, so "RATE_LIMIT" and "INVALID_API_KEY" are Unknown while
"QUOTA" and "BILLING" still classify as QuotaExceeded. -/
theorem C9_case_sensitivity :
    (∀ e, strContains e "401" = false → strContains e "invalid_api_key" = false →
      strContains e "429" = false → strContains e "rate_limit" = false →
      strContains (lower e) "quota" = false → strContains (lower e) "billing" = false →
      strContains e "403" = false → classify e = ErrorCategory.unknown) ∧
    classify "RATE_LIMIT" = ErrorCategory.unknown ∧
    classify "INVALID_API_KEY" = ErrorCategory.unknown ∧
    classify "QUOTA" = ErrorCategory.quotaExceeded ∧
    classify "BILLING" = ErrorCategory.quotaExceeded := by
  refine ⟨?_, by decide, by decide, by decide, by decide⟩
  intro e h1 h2 h3 h4 h5 h6 h7
  simp [classify, h1, h2, h3, h4, h5, h6, h7]

/-- C9 witness: "RATE_LIMIT" matches none of the case-sensitive needles
and is classified Unknown through the general statement. -/
theorem C9_case_sensitivity_witness :
    classify "RATE_LIMIT" = ErrorCategory.unknown :=
  C9_case_sensitivity.1 "RATE_LIMIT" (by decide) (by decide) (by decide)
    (by decide) (by decide) (by decide) (by decide)

/-- C10 counterexample: a credential present as the empty string also
avoids the network call of the self-test, contradicting the claim that
only an absent credential does. -/
theorem C10_counterexample :
    (some "" ≠ (none : Option String)) ∧
    (api_key_test (some "") (fun _ => TransportOutcome.error "x")).2 = [] := by
  refine ⟨by simp, rfl⟩

/-- C10 (amended): the self-test performs no "sk-" prefix validation —
every present, nonempty credential (including one the gateway would
reject as malformed) triggers exactly the one outbound test request, and
the result reports success with the returned text or failure with the raw
error string; an absent or empty credential avoids the network call. -/
theorem C10_self_test_no_prefix_validation (tr : Request → TransportOutcome) :
    (∀ key, key ≠ "" → (api_key_test (some key) tr).2 = [testRequest]) ∧
    (api_key_test none tr).2 = [] ∧
    (api_key_test (some "") tr).2 = [] ∧
    (∀ key c rest, key ≠ "" → tr testRequest = TransportOutcome.success (c :: rest) →
      (api_key_test (some key) tr).1 = ["✅ APIキーは有効です！", "テスト応答: " ++ c]) ∧
    (∀ key e, key ≠ "" → tr testRequest = TransportOutcome.error e →
      (api_key_test (some key) tr).1 = ["❌ APIキーテスト失敗: " ++ e]) := by
  have unfoldTest : ∀ key : String, key ≠ "" →
      api_key_test (some key) tr =
        match tr testRequest with
        | TransportOutcome.success [] => (["❌ APIキーテスト失敗: " ++ indexErrorText], [testRequest])
        | TransportOutcome.success (c :: _) => (["✅ APIキーは有効です！", "テスト応答: " ++ c], [testRequest])
        | TransportOutcome.error e => (["❌ APIキーテスト失敗: " ++ e], [testRequest]) := by
    intro key hne
    show (if key = "" then ([keyNotSetMessage], [])
      else
        match tr testRequest with
        | TransportOutcome.success [] => (["❌ APIキーテスト失敗: " ++ indexErrorText], [testRequest])
        | TransportOutcome.success (c :: _) => (["✅ APIキーは有効です！", "テスト応答: " ++ c], [testRequest])
        | TransportOutcome.error e => (["❌ APIキーテスト失敗: " ++ e], [testRequest])) = _
    rw [if_neg hne]
  refine ⟨?_, rfl, rfl, ?_, ?_⟩
  · intro key hne
    rw [unfoldTest key hne]
    cases ht : tr testRequest with
    | success choices => cases choices <;> rfl
    | error e => rfl
  · intro key c rest hne ht
    rw [unfoldTest key hne, ht]
  · intro key e hne ht
    rw [unfoldTest key hne, ht]

/-- C10 witness: the key "not-a-key", which the gateway rejects as
malformed, still makes the self-test issue its one request and report the
raw error. -/
theorem C10_self_test_no_prefix_validation_witness :
    (api_key_test (some "not-a-key") (fun _ => TransportOutcome.error "bad key")).2
      = [testRequest] ∧
    (api_key_test (some "not-a-key") (fun _ => TransportOutcome.error "bad key")).1
      = ["❌ APIキーテスト失敗: " ++ "bad key"] :=
  ⟨(C10_self_test_no_prefix_validation (fun _ => TransportOutcome.error "bad key")).1
      "not-a-key" (by decide),
   (C10_self_test_no_prefix_validation (fun _ => TransportOutcome.error "bad key")).2.2.2.2
      "not-a-key" "bad key" (by decide) rfl⟩

end StreamlitApp
